import Mathlib

/-!
Verification of the SpoolBuddy printer-fleet state engine.

Shallow embedding of the two C sources:
  * `src/lvgl-simulator-sdl/backend_client.c` (field decoder, state cache,
    transport poller, firmware-compatible accessors), and
  * `src/firmware/components/eez_ui/ui_backend.c` (active-tray resolver,
    refresh-rate controller, global tray index).

JSON values are modelled by the inductive `JVal` mirroring what cJSON exposes
to this code: `valueint`, `valuestring`, `IsNull`, `IsTrue`, `IsArray`,
`GetObjectItem`.  C `int` fields become `Int`; the only unsigned quantity,
the packed RGBA color, is a `Nat` that provably stays below `2 ^ 32`.
-/

namespace SpoolBuddy

/-- Model of a cJSON value as this code observes it. -/
inductive JVal where
  | jnull : JVal
  | jbool : Bool → JVal
  | jnum : Int → JVal
  | jstr : String → JVal
  | jarr : List JVal → JVal
  | jobj : List (String × JVal) → JVal

/-- Model of `cJSON_GetObjectItem`: field lookup on an object, `none` when the
value is not an object or the key is missing.  (cJSON compares keys
case-insensitively; the code only ever uses fixed lower-case keys, so exact
match is adequate.) -/
def jGet (j : JVal) (key : String) : Option JVal :=
  match j with
  | JVal.jobj fields => (fields.find? (fun p => p.1 == key)).map (fun p => p.2)
  | _ => none

/-- Model of cJSON's `item->valueint`: the integer for numbers, 1/0 for
booleans, and 0 for every other node type. -/
def valueint : JVal → Int
  | JVal.jnum n => n
  | JVal.jbool true => 1
  | _ => 0

/-- The C idiom `item ? item->valueint : d`. -/
def cIntOr (o : Option JVal) (d : Int) : Int :=
  match o with
  | some v => valueint v
  | none => d

/-- The C idiom `item && !cJSON_IsNull(item) ? item->valueint : d`. -/
def cIntNonNullOr (o : Option JVal) (d : Int) : Int :=
  match o with
  | some JVal.jnull => d
  | some v => valueint v
  | none => d

/-- The C idiom `if (item && item->valuestring) strncpy(dst, ...)` on a
zero-initialised destination: the string when the node is a string, `""`
otherwise.  (`valuestring` is non-NULL exactly for string nodes.) -/
def cStrOr (o : Option JVal) : String :=
  match o with
  | some (JVal.jstr s) => s
  | _ => ""

/-- The C idiom `item ? cJSON_IsTrue(item) : false`. -/
def cBoolOr (o : Option JVal) : Bool :=
  match o with
  | some (JVal.jbool true) => true
  | _ => false

/-! ## State cache data model (backend_client.c structs)

The fixed C arrays with their separate element counters become lists; the
counter is the list length, the caps (8 printers, 8 units, 4 trays) are
enforced by the parsing loops exactly as in the source. -/

structure BackendAmsTray where
  ams_id : Int := 0
  tray_id : Int := 0
  tray_type : String := ""
  tray_color : String := ""
  remain : Int := 0
  nozzle_temp_min : Int := 0
  nozzle_temp_max : Int := 0

structure BackendAmsUnit where
  id : Int := 0
  humidity : Int := 0
  temperature : Int := 0
  extruder : Int := 0
  trays : List BackendAmsTray := []

structure BackendPrinterState where
  serial : String := ""
  name : String := ""
  connected : Bool := false
  gcode_state : String := ""
  print_progress : Int := 0
  layer_num : Int := 0
  total_layer_num : Int := 0
  subtask_name : String := ""
  remaining_time : Int := 0
  stg_cur : Int := 0
  stg_cur_name : String := ""
  tray_now : Int := 0
  tray_now_left : Int := 0
  tray_now_right : Int := 0
  active_extruder : Int := 0
  ams_units : List BackendAmsUnit := []

structure DeviceState where
  display_connected : Bool := false

structure BackendState where
  backend_reachable : Bool := false
  printers : List BackendPrinterState := []
  device : DeviceState := {}

/-! ## Field decoder (parse_ams_tray / parse_ams_unit / parse_printer_state) -/

/-- `parse_ams_tray` (backend_client.c lines 88-115). -/
def parse_ams_tray (j : JVal) : BackendAmsTray :=
  { ams_id := cIntOr (jGet j "ams_id") 0
    tray_id := cIntOr (jGet j "tray_id") 0
    tray_type := cStrOr (jGet j "tray_type")
    tray_color := cStrOr (jGet j "tray_color")
    remain := cIntOr (jGet j "remain") 0
    nozzle_temp_min := cIntOr (jGet j "nozzle_temp_min") 0
    nozzle_temp_max := cIntOr (jGet j "nozzle_temp_max") 0 }

/-- The `trays` loop of `parse_ams_unit`: entries are copied only while
`tray_count < 4`, so at most the first four array elements are taken. -/
def parse_trays_field (o : Option JVal) : List BackendAmsTray :=
  match o with
  | some (JVal.jarr xs) => (xs.take 4).map parse_ams_tray
  | _ => []

/-- `parse_ams_unit` (backend_client.c lines 118-144). -/
def parse_ams_unit (j : JVal) : BackendAmsUnit :=
  { id := cIntOr (jGet j "id") 0
    humidity := cIntNonNullOr (jGet j "humidity") (-1)
    temperature := cIntNonNullOr (jGet j "temperature") (-1)
    extruder := cIntNonNullOr (jGet j "extruder") (-1)
    trays := parse_trays_field (jGet j "trays") }

/-- The `ams_units` loop of `parse_printer_state`: at most 8 units. -/
def parse_ams_units_field (o : Option JVal) : List BackendAmsUnit :=
  match o with
  | some (JVal.jarr xs) => (xs.take 8).map parse_ams_unit
  | _ => []

/-- `parse_printer_state` (backend_client.c lines 147-207); the record it
fills was zeroed by the caller, so untouched string fields are `""` and the
`serial`/`name`/`connected` fields (set by `backend_poll` beforehand) keep
their defaults here. -/
def parse_printer_state (j : JVal) : BackendPrinterState :=
  { gcode_state := cStrOr (jGet j "gcode_state")
    print_progress := cIntNonNullOr (jGet j "print_progress") 0
    layer_num := cIntNonNullOr (jGet j "layer_num") 0
    total_layer_num := cIntNonNullOr (jGet j "total_layer_num") 0
    subtask_name := cStrOr (jGet j "subtask_name")
    remaining_time := cIntNonNullOr (jGet j "mc_remaining_time") 0
    stg_cur := cIntNonNullOr (jGet j "stg_cur") (-1)
    stg_cur_name := cStrOr (jGet j "stg_cur_name")
    tray_now := cIntNonNullOr (jGet j "tray_now") (-1)
    tray_now_left := cIntNonNullOr (jGet j "tray_now_left") (-1)
    tray_now_right := cIntNonNullOr (jGet j "tray_now_right") (-1)
    active_extruder := cIntNonNullOr (jGet j "active_extruder") (-1)
    ams_units := parse_ams_units_field (jGet j "ams_units") }

/-- One printer entry of the `backend_poll` list loop (lines 270-290):
memset to zero, then `serial`, `name`, `connected`, then
`parse_printer_state` on the same JSON object. -/
def parse_printer (j : JVal) : BackendPrinterState :=
  { parse_printer_state j with
    serial := cStrOr (jGet j "serial")
    name := cStrOr (jGet j "name")
    connected := cBoolOr (jGet j "connected") }

/-! ## Transport poller (backend_poll) -/

/-- The printer-list part of `backend_poll`: the loop breaks once
`printer_count >= 8`; a non-array body leaves the count at 0. -/
def parse_printers_resp (j : JVal) : List BackendPrinterState :=
  match j with
  | JVal.jarr xs => (xs.take 8).map parse_printer
  | _ => []

/-- `backend_poll` (backend_client.c lines 247-306) as a function of the three
fetch results.  `none` models `fetch_json` returning NULL (transport failure
or unparsable body).  The heartbeat result is taken but — exactly as in the
source — never consulted.  Returns the new cache state and the C result
code. -/
def backend_poll (st : BackendState) (heartbeat : Option JVal)
    (printersResp : Option JVal) (statusResp : Option JVal) :
    BackendState × Int :=
  match heartbeat, printersResp with
  | _, none => ({ st with backend_reachable := false }, -1)
  | _, some j =>
    let printers := parse_printers_resp j
    let device :=
      match statusResp with
      | some sj => { display_connected := cBoolOr (jGet sj "connected") }
      | none => st.device
    ({ backend_reachable := true, printers := printers, device := device }, 0)

/-! ## Hex color decoding (parse_hex_color_rgba) -/

/-- One character of the `parse_hex_color_rgba` loop body: the branch chain
leaves `digit = 0` for any character outside `0-9a-fA-F`. -/
def hexNibble (c : Char) : Nat :=
  if '0' ≤ c ∧ c ≤ '9' then c.toNat - '0'.toNat
  else if 'a' ≤ c ∧ c ≤ 'f' then c.toNat - 'a'.toNat + 10
  else if 'A' ≤ c ∧ c ≤ 'F' then c.toNat - 'A'.toNat + 10
  else 0

/-- Whether a character is one the source's digit chain recognises. -/
def isHexDigitChar (c : Char) : Bool :=
  (('0' ≤ c ∧ c ≤ '9') ∨ ('a' ≤ c ∧ c ≤ 'f') ∨ ('A' ≤ c ∧ c ≤ 'F') : Prop)

/-- Accumulated value of a nibble list, the loop invariant of the source's
`color` accumulator.  Each C step is `color = (color << 4) | digit` on a
`uint32_t`; since `digit < 16` the OR adds disjoint bits, i.e. equals
`16 * color + digit`, and with at most 8 nibbles folded from 0 the value
stays below `2 ^ 32`, so no truncation occurs. -/
def hexVal (cs : List Char) : Nat :=
  cs.foldl (fun acc c => 16 * acc + hexNibble c) 0

/-- `parse_hex_color_rgba` (backend_client.c lines 409-425) on the string's
characters.  A NULL pointer or empty string returns 0; a single leading `#`
is skipped; the loop reads the first `min (len, 8)` characters; a length of
exactly 6 appends a full-opacity alpha byte: `(color << 8) | 0xFF`, which is
`256 * color + 255` since the low 8 bits of the shifted value are zero. -/
def parse_hex_color_rgba (hex : List Char) : Nat :=
  match hex with
  | [] => 0
  | c :: rest =>
    let t := if c = '#' then rest else c :: rest
    let color := hexVal (t.take 8)
    if t.length = 6 then 256 * color + 255 else color

/-! ## Firmware-compatible accessors (backend_client.c lines 427-524) -/

structure BackendStatus where
  state : Int := 0
  printer_count : Int := 0

/-- `backend_get_status` (lines 427-438). -/
def backend_get_status (st : BackendState) : BackendStatus :=
  if st.backend_reachable then
    { state := 2, printer_count := (st.printers.length : Int) }
  else
    { state := 0, printer_count := 0 }

structure BackendPrinterInfo where
  name : String := ""
  serial : String := ""
  gcode_state : String := ""
  subtask_name : String := ""
  stg_cur_name : String := ""
  remaining_time_min : Int := 0
  print_progress : Int := 0
  stg_cur : Int := 0
  connected : Bool := false

/-- The field copy of `backend_get_printer` (lines 445-459). -/
def printer_info_of (src : BackendPrinterState) : BackendPrinterInfo :=
  { name := src.name
    serial := src.serial
    gcode_state := src.gcode_state
    subtask_name := src.subtask_name
    stg_cur_name := src.stg_cur_name
    remaining_time_min := src.remaining_time
    print_progress := src.print_progress
    stg_cur := src.stg_cur
    connected := src.connected }

/-- `backend_get_printer` (lines 440-461).  Returning `-1` without touching
the out-parameter is modelled as `none`; returning `0` with the copy written
is `some`. -/
def backend_get_printer (st : BackendState) (index : Int) :
    Option BackendPrinterInfo :=
  if index < 0 ∨ (st.printers.length : Int) ≤ index then none
  else (st.printers.get? index.toNat).map printer_info_of

/-- `backend_get_ams_count` (lines 463-468). -/
def backend_get_ams_count (st : BackendState) (printer_index : Int) : Int :=
  if printer_index < 0 ∨ (st.printers.length : Int) ≤ printer_index then 0
  else
    match st.printers.get? printer_index.toNat with
    | some p => (p.ams_units.length : Int)
    | none => 0

structure AmsTrayCInfo where
  tray_type : String := ""
  tray_color : Nat := 0
  remain : Int := 0

structure AmsUnitCInfo where
  id : Int := 0
  humidity : Int := 0
  temperature : Int := 0
  extruder : Int := 0
  tray_count : Int := 0
  trays : List AmsTrayCInfo := []

/-- The field copy of `backend_get_ams_unit` (lines 480-493): the temperature
is scaled by 10 (firmware tenths-of-degree convention), humidity and extruder
are copied as-is, and at most 4 trays are copied with their colors decoded. -/
def ams_unit_info_of (src : BackendAmsUnit) : AmsUnitCInfo :=
  { id := src.id
    humidity := src.humidity
    temperature := src.temperature * 10
    extruder := src.extruder
    tray_count := (src.trays.length : Int)
    trays := (src.trays.take 4).map (fun t =>
      { tray_type := t.tray_type
        tray_color := parse_hex_color_rgba t.tray_color.data
        remain := t.remain }) }

/-- `backend_get_ams_unit` (lines 470-496), with the same `Option` convention
as `backend_get_printer`. -/
def backend_get_ams_unit (st : BackendState) (printer_index ams_index : Int) :
    Option AmsUnitCInfo :=
  if printer_index < 0 ∨ (st.printers.length : Int) ≤ printer_index then none
  else
    match st.printers.get? printer_index.toNat with
    | none => none
    | some printer =>
      if ams_index < 0 ∨ (printer.ams_units.length : Int) ≤ ams_index then none
      else (printer.ams_units.get? ams_index.toNat).map ams_unit_info_of

/-! ## Active-tray resolver (ui_backend.c) -/

/-- `get_global_tray_index` (ui_backend.c lines 520-529). -/
def get_global_tray_index (ams_id tray_idx : Int) : Int :=
  if 0 ≤ ams_id ∧ ams_id ≤ 3 then ams_id * 4 + tray_idx
  else if 128 ≤ ams_id ∧ ams_id ≤ 135 then 64 + (ams_id - 128)
  else if ams_id = 254 ∨ ams_id = 255 then ams_id
  else -1

/-- The per-printer active-tray resolution of `update_ams_display`
(ui_backend.c lines 797-815), returning `(active_tray_left,
active_tray_right)`.  Both start at `-1`; dual-nozzle mode is
`active_extruder >= 0`. -/
def resolve_active_trays (tray_now tray_now_left tray_now_right
    active_extruder : Int) : Int × Int :=
  let is_dual_nozzle := 0 ≤ active_extruder
  if is_dual_nozzle then
    if active_extruder = 0 ∧ 0 ≤ tray_now_right then (-1, tray_now_right)
    else if active_extruder = 1 ∧ 0 ≤ tray_now_left then (tray_now_left, -1)
    else (-1, -1)
  else (-1, tray_now)

/-- The same resolution as the SPEC's words state it (spec section 4.3 steps
2-4): dual-nozzle mode holds exactly when `active_extruder` is 0 or 1, and
otherwise the legacy `tray_now` feeds the right side.  Declared only to be
compared against the source-derived `resolve_active_trays`. -/
def resolve_active_trays_specmodel (tray_now tray_now_left tray_now_right
    active_extruder : Int) : Int × Int :=
  let is_dual_nozzle := active_extruder = 0 ∨ active_extruder = 1
  if is_dual_nozzle then
    if active_extruder = 0 ∧ 0 ≤ tray_now_right then (-1, tray_now_right)
    else if active_extruder = 1 ∧ 0 ≤ tray_now_left then (tray_now_left, -1)
    else (-1, -1)
  else (-1, tray_now)

/-- Effective slot count of `create_ams_container` (line 604):
`info->tray_count > 0 ? info->tray_count : 1`. -/
def effective_slot_count (info : AmsUnitCInfo) : Int :=
  if 0 < info.tray_count then info.tray_count else 1

/-- The `container_active` loop of `create_ams_container` (lines 621-628):
some slot index below the effective slot count whose global tray index equals
the `tray_now` argument. -/
def container_contains_active (info : AmsUnitCInfo) (tray_now : Int) : Bool :=
  (List.range (effective_slot_count info).toNat).any
    (fun i => get_global_tray_index info.id (i : Int) == tray_now)

/-- The side selection of the `update_ams_display` loop (lines 836-841):
`use_left = (info.extruder == 1)` picks which resolved active index is passed
to `create_ams_container`. -/
def unit_side_active_index (info : AmsUnitCInfo)
    (active_tray_left active_tray_right : Int) : Int :=
  if info.extruder = 1 then active_tray_left else active_tray_right

/-! ## Refresh-rate controller (update_backend_ui, ui_backend.c lines 62-107) -/

/-- The main-screen id compared against in `update_backend_ui`.
Modelled from the spec: `screens.h` (defining `SCREEN_ID_MAIN`) is not among
the shown sources; the id is an opaque nonzero constant whose exact value
none of the proved properties depend on. -/
def SCREEN_ID_MAIN : Int := 1

structure UiState where
  counter : Int := 0
  previous_screen : Int := -1
  needs_refresh : Bool := true

structure Status where
  state : Int := 0
  printer_count : Int := 0

/-- The initial values of the file-scope statics `backend_update_counter`,
`previous_screen` and `needs_data_refresh`. -/
def uiInit : UiState := {}

/-- One tick of `update_backend_ui` as far as the refresh-rate state is
concerned, fed with the current screen id and the `backend_get_status`
result it would observe.  Returns the new state and whether the tick passed
the rate limit (i.e. consulted the backend status).  The C increment
`++backend_update_counter` is short-circuited away on forced ticks, but the
counter is reset to 0 on every passing tick, so the two behaviours agree. -/
def update_backend_ui (st : UiState) (screen_id : Int) (status : Status) :
    UiState × Bool :=
  let force := screen_id = SCREEN_ID_MAIN ∧ st.previous_screen ≠ screen_id
  let needs1 := if force then true else st.needs_refresh
  let rate_limit : Int := if needs1 then 20 else 100
  if ¬force ∧ st.counter + 1 < rate_limit then
    ({ counter := st.counter + 1, previous_screen := screen_id,
       needs_refresh := needs1 }, false)
  else
    let needs2 :=
      if status.state = 2 ∧ 0 < status.printer_count then false else needs1
    ({ counter := 0, previous_screen := screen_id,
       needs_refresh := needs2 }, true)

/-- Iterate `update_backend_ui` over a list of (screen id, observed status)
ticks. -/
def run_ticks (st : UiState) (ticks : List (Int × Status)) : UiState :=
  ticks.foldl (fun s t => (update_backend_ui s t.1 t.2).1) st

/-! ## Named concrete samples and spec-side predicates used in statements -/

/-- The in-range (unit id, slot) pairs of the data model: standard 4-slot
units 0-3 with slots 0-3, single-slot high-temperature units 128-135, and the
external-spool sentinels 254/255 (one slot each). -/
def ValidTrayPair (id s : Int) : Prop :=
  (0 ≤ id ∧ id ≤ 3 ∧ 0 ≤ s ∧ s ≤ 3) ∨
  (128 ≤ id ∧ id ≤ 135 ∧ s = 0) ∨
  ((id = 254 ∨ id = 255) ∧ s = 0)

/-- A field that is absent from the record or present with a JSON null. -/
def AbsentOrNull (j : JVal) (k : String) : Prop :=
  jGet j k = none ∨ jGet j k = some JVal.jnull

/-- A one-printer cache used by concrete accessor witnesses. -/
def onePrinterCache : BackendState := { printers := [{}] }

/-- A cached unit whose temperature is the unknown sentinel -1. -/
def unknownTempUnit : BackendAmsUnit :=
  { id := 0, humidity := 40, temperature := -1, extruder := 0 }

/-- A one-printer cache whose printer holds `unknownTempUnit`. -/
def unknownTempCache : BackendState :=
  { backend_reachable := true, printers := [{ ams_units := [unknownTempUnit] }] }

/-- A reachable one-printer status observation. -/
def statusGood : Status := { state := 2, printer_count := 1 }

/-- An unreachable (or empty) status observation. -/
def statusBad : Status := { state := 0, printer_count := 0 }

/-- The fast-cadence state one tick before the threshold, used by the C4
witness. -/
def fastCadenceAt19 : UiState :=
  { counter := 19, previous_screen := 2, needs_refresh := true }

/-! ## Theorems -/

/-- C5: the global tray index is `id*4+s` for standard units 0-3 (values
0-15), `64+(id-128)` for high-temperature units 128-135 (values 64-71), and
the id itself for 254/255; it is injective across all in-range (id, slot)
pairs, and the three value ranges are pairwise disjoint (being contained in
0-15, 64-71 and 254-255 respectively). -/
theorem C5_global_tray_index (id s id2 s2 : Int) :
    (0 ≤ id → id ≤ 3 → 0 ≤ s → s ≤ 3 →
      get_global_tray_index id s = id * 4 + s) ∧
    (128 ≤ id → id ≤ 135 → get_global_tray_index id s = 64 + (id - 128)) ∧
    (get_global_tray_index 254 s = 254) ∧
    (get_global_tray_index 255 s = 255) ∧
    (0 ≤ id → id ≤ 3 → 0 ≤ s → s ≤ 3 →
      0 ≤ get_global_tray_index id s ∧ get_global_tray_index id s ≤ 15) ∧
    (128 ≤ id → id ≤ 135 →
      64 ≤ get_global_tray_index id s ∧ get_global_tray_index id s ≤ 71) ∧
    (ValidTrayPair id s → ValidTrayPair id2 s2 →
      get_global_tray_index id s = get_global_tray_index id2 s2 →
      id = id2 ∧ s = s2) := by
  unfold ValidTrayPair
  refine ⟨?_, ?_, ?_, ?_, ?_, ?_, ?_⟩
  · intro h1 h2 h3 h4
    unfold get_global_tray_index
    split_ifs <;> omega
  · intro h1 h2
    unfold get_global_tray_index
    split_ifs <;> omega
  · unfold get_global_tray_index
    split_ifs <;> omega
  · unfold get_global_tray_index
    split_ifs <;> omega
  · intro h1 h2 h3 h4
    unfold get_global_tray_index
    split_ifs <;> omega
  · intro h1 h2
    unfold get_global_tray_index
    split_ifs <;> omega
  · intro hv1 hv2 heq
    unfold get_global_tray_index at heq
    split_ifs at heq <;> omega

/-- Witness for C5 at a concrete standard unit: unit 2, slot 3 has global
index 11. -/
theorem C5_witness : get_global_tray_index 2 3 = 11 := by
  have h := (C5_global_tray_index 2 3 0 0).1
    (by norm_num) (by norm_num) (by norm_num) (by norm_num)
  simpa using h

/-- Counterexample for C1: at `active_extruder = 2` the source treats the
printer as dual-nozzle (`active_extruder >= 0`) and resolves no active tray,
while the claim's rule (dual iff `active_extruder` is 0 or 1) would fall back
to the legacy `tray_now = 5` on the right side. -/
theorem C1_counterexample :
    resolve_active_trays 5 (-1) (-1) 2 ≠
      resolve_active_trays_specmodel 5 (-1) (-1) 2 := by decide

/-- C1 (amended): dual-nozzle mode holds exactly when `active_extruder >= 0`
(not only for 0 or 1).  In dual mode the right side is active only when
`active_extruder = 0` and `tray_now_right >= 0`, the left side only when
`active_extruder = 1` and `tray_now_left >= 0`, the legacy `tray_now` being
ignored entirely; otherwise (`active_extruder < 0`) the legacy `tray_now`
is the right side's active index and the left side has none. -/
theorem C1_active_tray_resolution_amended (tn tl tr ae : Int) :
    (0 ≤ ae →
      (resolve_active_trays tn tl tr ae).2 =
        (if ae = 0 ∧ 0 ≤ tr then tr else -1) ∧
      (resolve_active_trays tn tl tr ae).1 =
        (if ae = 1 ∧ 0 ≤ tl then tl else -1) ∧
      (∀ tn2, resolve_active_trays tn2 tl tr ae =
        resolve_active_trays tn tl tr ae)) ∧
    (ae < 0 → resolve_active_trays tn tl tr ae = (-1, tn)) := by
  unfold resolve_active_trays
  constructor
  · intro h
    simp only [if_pos h]
    refine ⟨?_, ?_, ?_⟩
    · by_cases h1 : ae = 0 ∧ 0 ≤ tr
      · rw [if_pos h1, if_pos h1]
      · rw [if_neg h1, if_neg h1]
        by_cases h2 : ae = 1 ∧ 0 ≤ tl
        · rw [if_pos h2]
        · rw [if_neg h2]
    · by_cases h1 : ae = 0 ∧ 0 ≤ tr
      · rw [if_pos h1]
        have hno : ¬(ae = 1 ∧ 0 ≤ tl) := fun hc => by omega
        rw [if_neg hno]
      · rw [if_neg h1]
        by_cases h2 : ae = 1 ∧ 0 ≤ tl
        · rw [if_pos h2, if_pos h2]
        · rw [if_neg h2, if_neg h2]
    · intro tn2
      first | rfl | trivial
  · intro h
    rw [if_neg (by omega : ¬0 ≤ ae)]

/-- Witness for C1 at the spec's own dual-nozzle example: `active_extruder=0,
tray_now_right=5, tray_now_left=2, tray_now=9` gives right 5, left none. -/
theorem C1_witness :
    (resolve_active_trays 9 2 5 0).2 = 5 ∧
    (resolve_active_trays 9 2 5 0).1 = -1 := by
  have h := (C1_active_tray_resolution_amended 9 2 5 0).1 (by norm_num)
  refine ⟨?_, ?_⟩
  · rw [h.1]; norm_num
  · rw [h.2.1]; norm_num

/-- `effective_slot_count` is at least 1 (a single-slot unit reported with 0
trays still has one effective slot). -/
theorem effective_slot_count_pos (info : AmsUnitCInfo) :
    0 < effective_slot_count info := by
  unfold effective_slot_count
  split_ifs <;> omega

/-- C6: a unit is marked as containing the active tray exactly when some slot
below its effective slot count has a global tray index equal to the resolved
active index of its assigned nozzle side, the side being left when
`extruder = 1` and right otherwise. -/
theorem C6_container_active (info : AmsUnitCInfo) (aL aR : Int) :
    container_contains_active info (unit_side_active_index info aL aR) =
      true ↔
    ∃ i : Int, 0 ≤ i ∧ i < effective_slot_count info ∧
      get_global_tray_index info.id i =
        (if info.extruder = 1 then aL else aR) := by
  unfold container_contains_active unit_side_active_index
  rw [List.any_eq_true]
  constructor
  · rintro ⟨n, hn, hb⟩
    rw [List.mem_range] at hn
    rw [beq_iff_eq] at hb
    refine ⟨(n : Int), by omega, by omega, hb⟩
  · rintro ⟨i, h0, hlt, heq⟩
    refine ⟨i.toNat, ?_, ?_⟩
    · rw [List.mem_range]; omega
    · rw [beq_iff_eq, Int.toNat_of_nonneg h0]; exact heq

/-- Witness for C6 at the spec's end-to-end example: unit id 0 (right side),
resolved right active index 2, slot 2 matches, so the unit is flagged. -/
theorem C6_witness :
    container_contains_active { id := 0, tray_count := 4 }
      (unit_side_active_index { id := 0, tray_count := 4 } (-1) 2) = true := by
  refine (C6_container_active { id := 0, tray_count := 4 } (-1) 2).mpr
    ⟨2, by norm_num, ?_, ?_⟩
  · unfold effective_slot_count; norm_num
  · unfold get_global_tray_index; norm_num

/-- Counterexample for C2: inputs of length other than 6 or 8 do not all
decode to 0 — a 2-digit string keeps its 2 nibbles, and a 6-character string
of non-hex letters still gets the alpha byte appended. -/
theorem C2_counterexample :
    parse_hex_color_rgba ['1', '2'] ≠ 0 ∧
    parse_hex_color_rgba ['Z', 'Z', 'Z', 'Z', 'Z', 'Z'] ≠ 0 := by decide

/-- C2 (amended): a leading `#` is skipped; a 6-character input decodes to
its nibble value with a full-opacity alpha byte appended; an 8-character
input decodes to exactly its nibble value; the empty input decodes to 0;
and unrecognised characters contribute a 0 nibble instead of invalidating
the input (so inputs of other lengths fold their first
`min (len, 8)` nibbles rather than all decoding to 0). -/
theorem C2_hex_color_amended (cs : List Char) :
    (cs.head? ≠ some '#' →
      parse_hex_color_rgba ('#' :: cs) = parse_hex_color_rgba cs) ∧
    (cs.length = 6 → cs.head? ≠ some '#' →
      parse_hex_color_rgba cs = 256 * hexVal cs + 255) ∧
    (cs.length = 8 → cs.head? ≠ some '#' →
      parse_hex_color_rgba cs = hexVal cs) ∧
    parse_hex_color_rgba [] = 0 ∧
    (cs ≠ [] → cs.head? ≠ some '#' → cs.length ≠ 6 →
      parse_hex_color_rgba cs = hexVal (cs.take 8)) ∧
    (∀ c : Char, isHexDigitChar c = false → hexNibble c = 0) := by
  refine ⟨?_, ?_, ?_, rfl, ?_, ?_⟩
  · intro h
    cases cs with
    | nil => rfl
    | cons c rest =>
      have hc : c ≠ '#' := by simpa using h
      simp [parse_hex_color_rgba, hc]
  · intro hlen h
    cases cs with
    | nil => simp at hlen
    | cons c rest =>
      have hc : c ≠ '#' := by simpa using h
      have hle : (c :: rest).length ≤ 8 := by omega
      simp only [parse_hex_color_rgba, if_neg hc,
        List.take_of_length_le hle, hlen, if_true, eq_self_iff_true]
  · intro hlen h
    cases cs with
    | nil => simp at hlen
    | cons c rest =>
      have hc : c ≠ '#' := by simpa using h
      have hle : (c :: rest).length ≤ 8 := by omega
      have h6 : (c :: rest).length ≠ 6 := by omega
      simp only [parse_hex_color_rgba, if_neg hc,
        List.take_of_length_le hle, if_neg h6]
  · intro hne h h6
    cases cs with
    | nil => exact absurd rfl hne
    | cons c rest =>
      have hc : c ≠ '#' := by simpa using h
      simp only [parse_hex_color_rgba, if_neg hc, if_neg h6]
  · intro c h
    unfold isHexDigitChar at h
    simp only [decide_eq_false_iff_not] at h
    unfold hexNibble
    split_ifs with h1 h2 h3
    · exact absurd (Or.inl h1) h
    · exact absurd (Or.inr (Or.inl h2)) h
    · exact absurd (Or.inr (Or.inr h3)) h
    · rfl

/-- Witness for C2 at the spec's end-to-end example color `FF0000`: 6 hex
digits decode to the RGB value with full opacity appended, 0xFF0000FF. -/
theorem C2_witness :
    parse_hex_color_rgba ['F', 'F', '0', '0', '0', '0'] =
      256 * hexVal ['F', 'F', '0', '0', '0', '0'] + 255 := by
  exact (C2_hex_color_amended ['F', 'F', '0', '0', '0', '0']).2.1
    (by decide) (by decide)

/-- C3: a failed printer-list fetch (step b) marks the snapshot unreachable,
returns the error code, and leaves the stored printer records and the device
flag untouched; the heartbeat result (step a) never influences the outcome,
and a failed device-status fetch (step c) neither aborts the cycle (result
stays 0, reachability stays true) nor touches anything but its own flag
(which it leaves at its previous value). -/
theorem C3_poll_failure (st : BackendState) (hb sr : Option JVal) (j : JVal) :
    (backend_poll st hb none sr).1 = { st with backend_reachable := false } ∧
    (backend_poll st hb none sr).2 = -1 ∧
    (backend_poll st hb none sr).1.printers = st.printers ∧
    (backend_poll st hb none sr).1.device = st.device ∧
    (∀ hb2 pr sr2, backend_poll st hb pr sr2 = backend_poll st hb2 pr sr2) ∧
    (backend_poll st hb (some j) none).1.device = st.device ∧
    (backend_poll st hb (some j) none).1.backend_reachable = true ∧
    (backend_poll st hb (some j) sr).2 = 0 := by
  refine ⟨rfl, rfl, rfl, rfl, ?_, rfl, rfl, ?_⟩
  · intro hb2 pr sr2
    cases pr <;> rfl
  · cases sr <;> rfl

/-- Witness for C3: with a cache holding one printer, a failed list fetch
keeps it and reports -1. -/
theorem C3_witness :
    (backend_poll { backend_reachable := true, printers := [{}], device := {} }
        none none none).1.printers = [({} : BackendPrinterState)] ∧
    (backend_poll { backend_reachable := true, printers := [{}], device := {} }
        none none none).2 = -1 := by
  have h := C3_poll_failure
    { backend_reachable := true, printers := [{}], device := {} }
    none none (JVal.jobj [])
  exact ⟨h.2.2.1, h.2.1⟩

/-- Every parsed AMS unit carries at most 4 trays. -/
theorem parse_ams_unit_trays_le (j : JVal) :
    (parse_ams_unit j).trays.length ≤ 4 := by
  show (parse_trays_field (jGet j "trays")).length ≤ 4
  unfold parse_trays_field
  cases h : jGet j "trays" with
  | none => simp
  | some v =>
    cases v <;> simp [List.length_take]

/-- Every parsed printer carries at most 8 AMS units. -/
theorem parse_printer_units_le (j : JVal) :
    (parse_printer j).ams_units.length ≤ 8 := by
  show (parse_ams_units_field (jGet j "ams_units")).length ≤ 8
  unfold parse_ams_units_field
  cases h : jGet j "ams_units" with
  | none => simp
  | some v =>
    cases v <;> simp [List.length_take]

/-- C9: after any successful poll the snapshot holds at most 8 printers,
each with at most 8 AMS units of at most 4 trays each; excess elements are
dropped, a 9-printer response yielding exactly `min 9 8 = 8` printers and a
5-tray unit exactly `min 5 4 = 4` trays. -/
theorem C9_cardinality (st : BackendState) (hb sr : Option JVal) (j : JVal) :
    (backend_poll st hb (some j) sr).1.printers.length ≤ 8 ∧
    (∀ p ∈ (backend_poll st hb (some j) sr).1.printers,
      p.ams_units.length ≤ 8) ∧
    (∀ p ∈ (backend_poll st hb (some j) sr).1.printers,
      ∀ u ∈ p.ams_units, u.trays.length ≤ 4) ∧
    (∀ xs, j = JVal.jarr xs →
      (backend_poll st hb (some j) sr).1.printers.length = min xs.length 8) ∧
    (∀ uj ts, jGet uj "trays" = some (JVal.jarr ts) →
      (parse_ams_unit uj).trays.length = min ts.length 4) := by
  have hprinters : (backend_poll st hb (some j) sr).1.printers =
      parse_printers_resp j := by
    cases sr <;> rfl
  refine ⟨?_, ?_, ?_, ?_, ?_⟩
  · rw [hprinters]
    unfold parse_printers_resp
    cases j <;> simp [List.length_take]
  · intro p hp
    rw [hprinters] at hp
    unfold parse_printers_resp at hp
    cases j <;> first
      | exact absurd hp (List.not_mem_nil p)
      | · obtain ⟨x, _, hx⟩ := List.mem_map.mp hp
          rw [← hx]
          exact parse_printer_units_le x
  · intro p hp u hu
    rw [hprinters] at hp
    unfold parse_printers_resp at hp
    cases j <;> first
      | exact absurd hp (List.not_mem_nil p)
      | skip
    obtain ⟨x, _, hx⟩ := List.mem_map.mp hp
    rw [← hx] at hu
    have : (parse_printer x).ams_units =
        parse_ams_units_field (jGet x "ams_units") := rfl
    rw [this] at hu
    unfold parse_ams_units_field at hu
    cases hg : jGet x "ams_units" with
    | none => rw [hg] at hu; simp at hu
    | some v =>
      rw [hg] at hu
      cases v <;> first
        | exact absurd hu (List.not_mem_nil u)
        | skip
      obtain ⟨y, _, hy⟩ := List.mem_map.mp hu
      rw [← hy]
      exact parse_ams_unit_trays_le y
  · intro xs hxs
    subst hxs
    rw [hprinters]
    unfold parse_printers_resp
    simp [List.length_take, Nat.min_comm]
  · intro uj ts hts
    show (parse_trays_field (jGet uj "trays")).length = min ts.length 4
    rw [hts]
    unfold parse_trays_field
    simp [List.length_take, Nat.min_comm]

/-- Witness for C9: a response of 9 empty printer objects is capped at 8,
and a unit reporting 5 trays is capped at 4. -/
theorem C9_witness :
    (backend_poll {} none (some (JVal.jarr (List.replicate 9 (JVal.jobj []))))
        none).1.printers.length = 8 ∧
    (parse_ams_unit (JVal.jobj [("trays",
        JVal.jarr (List.replicate 5 (JVal.jobj [])))])).trays.length = 4 := by
  constructor
  · have h := (C9_cardinality {} none none
      (JVal.jarr (List.replicate 9 (JVal.jobj [])))).2.2.2.1
      (List.replicate 9 (JVal.jobj [])) rfl
    simpa using h
  · have h := (C9_cardinality {} none none (JVal.jobj [])).2.2.2.2
      (JVal.jobj [("trays", JVal.jarr (List.replicate 5 (JVal.jobj [])))])
      (List.replicate 5 (JVal.jobj [])) (by rfl)
    simpa using h

/-- The absent-or-null branch of `item && !cJSON_IsNull(item) ? ... : d`. -/
theorem cIntNonNullOr_default {o : Option JVal} {d : Int}
    (h : o = none ∨ o = some JVal.jnull) : cIntNonNullOr o d = d := by
  rcases h with h | h <;> rw [h] <;> rfl

/-- Counterexample for C7: the remaining-time estimate is claimed to follow
the `-1` default rule, but decoding a record without `mc_remaining_time`
yields 0, not -1. -/
theorem C7_counterexample :
    (parse_printer_state (JVal.jobj [])).remaining_time ≠ -1 := by decide

/-- C7 (amended): each absent-or-null numeric field defaults to -1 except
the progress and layer counters AND the remaining-time estimate, which
default to 0; absent strings default to the empty string, absent booleans
to false, and each field decodes independently, so a malformed field never
aborts decoding of the rest of the record. -/
theorem C7_field_defaults_amended (j : JVal) :
    (AbsentOrNull j "mc_remaining_time" →
      (parse_printer_state j).remaining_time = 0) ∧
    (AbsentOrNull j "print_progress" →
      (parse_printer_state j).print_progress = 0) ∧
    (AbsentOrNull j "layer_num" → (parse_printer_state j).layer_num = 0) ∧
    (AbsentOrNull j "total_layer_num" →
      (parse_printer_state j).total_layer_num = 0) ∧
    (AbsentOrNull j "stg_cur" → (parse_printer_state j).stg_cur = -1) ∧
    (AbsentOrNull j "tray_now" → (parse_printer_state j).tray_now = -1) ∧
    (AbsentOrNull j "tray_now_left" →
      (parse_printer_state j).tray_now_left = -1) ∧
    (AbsentOrNull j "tray_now_right" →
      (parse_printer_state j).tray_now_right = -1) ∧
    (AbsentOrNull j "active_extruder" →
      (parse_printer_state j).active_extruder = -1) ∧
    (AbsentOrNull j "humidity" → (parse_ams_unit j).humidity = -1) ∧
    (AbsentOrNull j "temperature" → (parse_ams_unit j).temperature = -1) ∧
    (AbsentOrNull j "extruder" → (parse_ams_unit j).extruder = -1) ∧
    (jGet j "subtask_name" = none →
      (parse_printer_state j).subtask_name = "") ∧
    (jGet j "gcode_state" = none → (parse_printer_state j).gcode_state = "") ∧
    (jGet j "stg_cur_name" = none →
      (parse_printer_state j).stg_cur_name = "") ∧
    (jGet j "serial" = none → (parse_printer j).serial = "") ∧
    (jGet j "name" = none → (parse_printer j).name = "") ∧
    (jGet j "connected" = none → (parse_printer j).connected = false) := by
  refine ⟨?_, ?_, ?_, ?_, ?_, ?_, ?_, ?_, ?_, ?_, ?_, ?_, ?_, ?_, ?_, ?_,
    ?_, ?_⟩ <;> intro h
  · exact cIntNonNullOr_default h
  · exact cIntNonNullOr_default h
  · exact cIntNonNullOr_default h
  · exact cIntNonNullOr_default h
  · exact cIntNonNullOr_default h
  · exact cIntNonNullOr_default h
  · exact cIntNonNullOr_default h
  · exact cIntNonNullOr_default h
  · exact cIntNonNullOr_default h
  · exact cIntNonNullOr_default h
  · exact cIntNonNullOr_default h
  · exact cIntNonNullOr_default h
  · show cStrOr (jGet j "subtask_name") = ""
    rw [h]; rfl
  · show cStrOr (jGet j "gcode_state") = ""
    rw [h]; rfl
  · show cStrOr (jGet j "stg_cur_name") = ""
    rw [h]; rfl
  · show cStrOr (jGet j "serial") = ""
    rw [h]; rfl
  · show cStrOr (jGet j "name") = ""
    rw [h]; rfl
  · show cBoolOr (jGet j "connected") = false
    rw [h]; rfl

/-- Witness for C7 on the empty record: every defaulted field takes its
sentinel. -/
theorem C7_witness :
    (parse_printer_state (JVal.jobj [])).remaining_time = 0 ∧
    (parse_printer_state (JVal.jobj [])).tray_now = -1 ∧
    (parse_ams_unit (JVal.jobj [])).temperature = -1 ∧
    (parse_printer (JVal.jobj [])).connected = false := by
  have h := C7_field_defaults_amended (JVal.jobj [])
  exact ⟨h.1 (Or.inl rfl), h.2.2.2.2.2.1 (Or.inl rfl),
    h.2.2.2.2.2.2.2.2.2.2.1 (Or.inl rfl),
    h.2.2.2.2.2.2.2.2.2.2.2.2.2.2.2.2.2 rfl⟩

/-- C8: every accessor answers out-of-range indices with an explicit
not-found result: `backend_get_printer` returns -1 writing nothing (modelled
`none`) for a negative or too-large printer index, `backend_get_ams_unit`
does the same when either index is out of range, and `backend_get_ams_count`
returns 0 for an out-of-range printer index. -/
theorem C8_accessor_bounds (st : BackendState) (i k : Int) :
    ((i < 0 ∨ (st.printers.length : Int) ≤ i) →
      backend_get_printer st i = none) ∧
    ((i < 0 ∨ (st.printers.length : Int) ≤ i) →
      backend_get_ams_unit st i k = none) ∧
    ((k < 0 ∨ backend_get_ams_count st i ≤ k) →
      backend_get_ams_unit st i k = none) ∧
    ((i < 0 ∨ (st.printers.length : Int) ≤ i) →
      backend_get_ams_count st i = 0) := by
  refine ⟨?_, ?_, ?_, ?_⟩
  · intro h
    unfold backend_get_printer
    rw [if_pos h]
  · intro h
    unfold backend_get_ams_unit
    rw [if_pos h]
  · intro h
    unfold backend_get_ams_unit
    by_cases hi : i < 0 ∨ (st.printers.length : Int) ≤ i
    · rw [if_pos hi]
    · rw [if_neg hi]
      have hi2 := hi
      push_neg at hi2
      obtain ⟨p, hp⟩ : ∃ p, st.printers.get? i.toNat = some p := by
        cases hq : st.printers.get? i.toNat with
        | some p => exact ⟨p, rfl⟩
        | none =>
          have := List.get?_eq_none.mp hq
          omega
      rw [hp]
      show (if k < 0 ∨ (p.ams_units.length : Int) ≤ k then none
        else Option.map ams_unit_info_of (p.ams_units.get? k.toNat)) = none
      have hcnt : backend_get_ams_count st i = (p.ams_units.length : Int) := by
        unfold backend_get_ams_count
        rw [if_neg hi, hp]
      rw [hcnt] at h
      rw [if_pos h]
  · intro h
    unfold backend_get_ams_count
    rw [if_pos h]

/-- Witness for C8 on concrete out-of-range indices against an empty cache
and a populated one. -/
theorem C8_witness :
    backend_get_printer {} (-1) = none ∧
    backend_get_ams_unit onePrinterCache 0 0 = none ∧
    backend_get_ams_count {} 5 = 0 := by
  refine ⟨?_, ?_, ?_⟩
  · exact (C8_accessor_bounds {} (-1) 0).1 (Or.inl (by norm_num))
  · exact (C8_accessor_bounds onePrinterCache 0 0).2.2.1
      (Or.inr (by norm_num [backend_get_ams_count, onePrinterCache]))
  · exact (C8_accessor_bounds {} 5 0).2.2.2 (Or.inr (by norm_num))

/-- C10: for in-range indices, `backend_get_ams_unit` exposes the cached
temperature multiplied by 10 (firmware tenths-of-degree convention) while
humidity and extruder pass through unscaled; in particular a cached unknown
sentinel -1 is exposed as -10. -/
theorem C10_ams_unit_scaling (st : BackendState) (i k : Nat)
    (p : BackendPrinterState) (u : BackendAmsUnit)
    (hp : st.printers.get? i = some p) (hu : p.ams_units.get? k = some u) :
    backend_get_ams_unit st (i : Int) (k : Int) =
      some (ams_unit_info_of u) ∧
    (ams_unit_info_of u).temperature = u.temperature * 10 ∧
    (ams_unit_info_of u).humidity = u.humidity ∧
    (ams_unit_info_of u).extruder = u.extruder ∧
    (u.temperature = -1 → (ams_unit_info_of u).temperature = -10) := by
  have hilen : i < st.printers.length := (List.get?_eq_some.mp hp).1
  have hklen : k < p.ams_units.length := (List.get?_eq_some.mp hu).1
  refine ⟨?_, rfl, rfl, rfl, ?_⟩
  · unfold backend_get_ams_unit
    rw [if_neg (by omega : ¬((i : Int) < 0 ∨
        (st.printers.length : Int) ≤ (i : Int)))]
    rw [Int.toNat_natCast, hp]
    show (if (k : Int) < 0 ∨ (p.ams_units.length : Int) ≤ (k : Int) then none
      else Option.map ams_unit_info_of (p.ams_units.get? ((k : Int)).toNat)) =
      some (ams_unit_info_of u)
    rw [if_neg (by omega : ¬((k : Int) < 0 ∨
        (p.ams_units.length : Int) ≤ (k : Int)))]
    rw [Int.toNat_natCast, hu]
    rfl
  · intro h
    show u.temperature * 10 = -10
    rw [h]
    norm_num

/-- Witness for C10: a cached unit with temperature -1 is exposed with
temperature -10. -/
theorem C10_witness :
    backend_get_ams_unit unknownTempCache 0 0 =
      some (ams_unit_info_of unknownTempUnit) ∧
    (ams_unit_info_of unknownTempUnit).temperature = -10 := by
  have h := C10_ams_unit_scaling unknownTempCache 0 0
    { ams_units := [unknownTempUnit] } unknownTempUnit rfl rfl
  exact ⟨by simpa using h.1, h.2.2.2.2 rfl⟩

set_option maxRecDepth 20000 in
/-- Counterexample for C4: the fast cadence does NOT return after a later
unreachable observation.  Starting from the initial state, a forced first
tick observes a reachable 1-printer status and switches to the slow cadence
(`needs_data_refresh = false`); then 99 unreachable ticks raise the counter
to 99, the 100th unreachable tick passes the rate limit (so it genuinely
observes the unreachable status), yet `needs_data_refresh` stays false,
where the claim demands the fast cadence after it. -/
theorem C4_counterexample :
    ((update_backend_ui uiInit 1 statusGood).2 = true) ∧
    ((update_backend_ui uiInit 1 statusGood).1.needs_refresh = false) ∧
    ((update_backend_ui
        (run_ticks (update_backend_ui uiInit 1 statusGood).1
          (List.replicate 99 (1, statusBad)))
        1 statusBad).2 = true) ∧
    ((update_backend_ui
        (run_ticks (update_backend_ui uiInit 1 statusGood).1
          (List.replicate 99 (1, statusBad)))
        1 statusBad).1.needs_refresh = false) := by
  decide

/-- C4 (amended): without a forced navigation, a tick consults the backend
exactly when the incremented counter reaches the cadence threshold of the
current mode (20 while `needs_data_refresh`, else 100); a consulting tick
that observes a reachable snapshot with at least one printer switches to the
slow cadence; but an unreachable or empty observation leaves the cadence
flag unchanged — the fast cadence returns only through a forced navigation
tick, never merely from bad data. -/
theorem C4_refresh_cadence_amended (st : UiState) (sid : Int)
    (status : Status) :
    (¬(sid = SCREEN_ID_MAIN ∧ st.previous_screen ≠ sid) →
      ((update_backend_ui st sid status).2 = true ↔
        (if st.needs_refresh then (20 : Int) else 100) ≤ st.counter + 1)) ∧
    ((update_backend_ui st sid status).2 = true → status.state = 2 →
      0 < status.printer_count →
      (update_backend_ui st sid status).1.needs_refresh = false) ∧
    (¬(sid = SCREEN_ID_MAIN ∧ st.previous_screen ≠ sid) →
      ¬(status.state = 2 ∧ 0 < status.printer_count) →
      (update_backend_ui st sid status).1.needs_refresh =
        st.needs_refresh) ∧
    ((sid = SCREEN_ID_MAIN ∧ st.previous_screen ≠ sid) →
      (update_backend_ui st sid status).2 = true) := by
  refine ⟨?_, ?_, ?_, ?_⟩
  · intro hnf
    simp only [update_backend_ui, if_neg hnf]
    by_cases hc : st.counter + 1 <
        (if st.needs_refresh then (20 : Int) else 100)
    · have hcond : ¬(sid = SCREEN_ID_MAIN ∧ st.previous_screen ≠ sid) ∧
          st.counter + 1 < (if st.needs_refresh then (20 : Int) else 100) :=
        ⟨hnf, hc⟩
      rw [if_pos hcond]
      constructor
      · intro h
        exact absurd h Bool.false_ne_true
      · intro h
        exact absurd h (not_le.mpr hc)
    · have hcond : ¬(¬(sid = SCREEN_ID_MAIN ∧ st.previous_screen ≠ sid) ∧
          st.counter + 1 < (if st.needs_refresh then (20 : Int) else 100)) :=
        fun hcon => hc hcon.2
      rw [if_neg hcond]
      constructor
      · intro _
        exact not_lt.mp hc
      · intro _
        rfl
  · intro hpoll hs hc
    simp only [update_backend_ui] at hpoll ⊢
    split_ifs at hpoll ⊢ <;>
      first
        | rfl
        | exact absurd hpoll Bool.false_ne_true
        | simp_all
  · intro hnf hbad
    simp only [update_backend_ui, if_neg hnf]
    by_cases hc : st.counter + 1 <
        (if st.needs_refresh then (20 : Int) else 100)
    · have hcond : ¬(sid = SCREEN_ID_MAIN ∧ st.previous_screen ≠ sid) ∧
          st.counter + 1 < (if st.needs_refresh then (20 : Int) else 100) :=
        ⟨hnf, hc⟩
      rw [if_pos hcond]
    · have hcond : ¬(¬(sid = SCREEN_ID_MAIN ∧ st.previous_screen ≠ sid) ∧
          st.counter + 1 < (if st.needs_refresh then (20 : Int) else 100)) :=
        fun hcon => hc hcon.2
      rw [if_neg hcond]
      show (if status.state = 2 ∧ 0 < status.printer_count then false
        else st.needs_refresh) = st.needs_refresh
      rw [if_neg hbad]
  · intro hf
    simp only [update_backend_ui]
    split_ifs with h1 h2 h3 <;>
      first
        | rfl
        | exact absurd hf h1.1
        | exact absurd hf h2.1
        | exact absurd hf h3.1
        | exact absurd rfl h1

/-- Witness for C4: with the fast cadence active and the counter at 19, a
non-navigation tick passes the 20-tick rate limit. -/
theorem C4_witness :
    (update_backend_ui fastCadenceAt19 2 statusBad).2 = true := by
  have h := (C4_refresh_cadence_amended fastCadenceAt19 2 statusBad).1
    (by norm_num [SCREEN_ID_MAIN, fastCadenceAt19])
  refine h.mpr ?_
  norm_num [fastCadenceAt19]

end SpoolBuddy
